import Mathlib

/-!
Verification of the chat-frontend component (`src/chat-frontend/app.tsx`) of
the azure-cloud-native-ai-workshop repository.

The component is a single stateful view: a conversation (list of messages),
an input buffer and a loading flag.  `handleSend` posts the input to a
backend and streams the reply into the trailing SYSTEM message.  The
definitions below are a shallow embedding of that component: the HTTP
response is modelled as a status code plus an optional list of decoded text
chunks (the values delivered by the body reader, in order), and `handleSend`
is the state transformer the async function computes once the stream is
exhausted.
-/

/-- `enum MessageType { USER, SYSTEM }` (app.tsx lines 7-10). -/
inductive MessageType where
  | USER
  | SYSTEM
deriving DecidableEq, Repr

/-- `type Message = { type: MessageType; text: string }` (app.tsx lines 12-15). -/
structure Message where
  type : MessageType
  text : String
deriving DecidableEq, Repr

/-- The component state: `messages`, `input`, `loading` (app.tsx lines 18-20). -/
structure AppState where
  messages : List Message
  input : String
  loading : Bool
deriving DecidableEq, Repr

/-- The HTTP response of the `/chat` call, as the component observes it:
a status code and, when `res.body` is non-null, the list of decoded text
chunks its reader delivers in order (`value` byte arrays decoded by the
`TextDecoder`, app.tsx lines 51-58).  `body = none` models a null body. -/
structure HttpResponse where
  status : Nat
  body : Option (List String)
deriving DecidableEq, Repr

/-- The fixed failure text (app.tsx line 47). -/
def errorText : String := "Something went wrong. Please try later."

/-- The test `!input.trim()` (app.tsx lines 24 and 135): the trimmed string is
empty — equivalently, every character of the string is whitespace. -/
def trimIsEmpty (s : String) : Bool := s.data.all Char.isWhitespace

/-- The updater passed to `setMessages` for each decoded chunk
(app.tsx lines 60-69): if the last message exists and is SYSTEM, replace it
with the accumulated `response`, otherwise append a new SYSTEM message. -/
def streamUpdate (response : String) (msgs : List Message) : List Message :=
  match msgs.getLast? with
  | some last =>
    if last.type = MessageType.SYSTEM then
      msgs.dropLast ++ [{ type := MessageType.SYSTEM, text := response }]
    else
      msgs ++ [{ type := MessageType.SYSTEM, text := response }]
  | none => msgs ++ [{ type := MessageType.SYSTEM, text := response }]

/-- The `while (!done)` read loop (app.tsx lines 53-78): each delivered chunk
is appended to the running `response` string and `streamUpdate` is applied.
Returns the final message list and accumulated response. -/
def readLoop (msgs : List Message) (response : String) (chunks : List String) :
    List Message × String :=
  match chunks with
  | [] => (msgs, response)
  | chunk :: rest =>
    readLoop (streamUpdate (response ++ chunk) msgs) (response ++ chunk) rest

/-- `handleSend` (app.tsx lines 23-83) as a state transformer, given the
response of the fetch.  Guard: `if (!input.trim()) return`.  Then the USER
message is appended, the response is handled (error branch on
`res.status != 200 || !res.body`, stream branch otherwise), and finally
`setLoading(false); setInput("")`. -/
def handleSend (st : AppState) (res : HttpResponse) : AppState :=
  if trimIsEmpty st.input then st
  else
    let msgs1 := st.messages ++ [{ type := MessageType.USER, text := st.input }]
    let msgs2 :=
      if res.status ≠ 200 then
        msgs1 ++ [{ type := MessageType.SYSTEM, text := errorText }]
      else
        match res.body with
        | none => msgs1 ++ [{ type := MessageType.SYSTEM, text := errorText }]
        | some chunks => (readLoop msgs1 "" chunks).1
    { messages := msgs2, input := "", loading := false }

/-- The request `handleSend` issues: `none` when the empty-trim guard returns
early (app.tsx line 24), otherwise the raw input posted as the JSON `prompt`
field (app.tsx lines 36-40). -/
def sentRequest (st : AppState) : Option String :=
  if trimIsEmpty st.input then none else some st.input

/-- `disabled={loading}` on the text input field (app.tsx line 133). -/
def inputDisabled (st : AppState) : Bool := st.loading

/-- `disabled={loading || !input.trim()}` on the send button (app.tsx line 135). -/
def buttonDisabled (st : AppState) : Bool := st.loading || trimIsEmpty st.input

/-- Send can only be triggered through an enabled control: Enter in the input
field (app.tsx line 131) or a click on the send button (line 135). -/
def canTriggerSend (st : AppState) : Bool :=
  !inputDisabled st || !buttonDisabled st

/-- The concatenation C1 ++ ... ++ Cn of a chunk list, as the spec's
"concatenation C1+...+Cn". -/
def concatChunks : List String → String
  | [] => ""
  | c :: rest => c ++ concatChunks rest

/-- How a message's text reaches the page: through the `ReactMarkdown`
markdown-to-visual transform, or as literal preformatted text. -/
inductive Rendered where
  | markdownBlock (text : String)
  | preformatted (text : String)
deriving DecidableEq, Repr

/-- The visual block the renderer produces for one message. -/
structure RenderedMessage where
  userBubble : Bool
  icon : Bool
  preWrap : Bool
  content : Rendered
deriving DecidableEq, Repr

/-- The per-message render (app.tsx lines 105-123): USER messages get the
right-aligned bubble styling, SYSTEM messages get the sparkle icon, and both
have their text wrapped in `<ReactMarkdown>` inside a `whitespace-pre-wrap`
container (lines 118-120). -/
def renderMessage (msg : Message) : RenderedMessage :=
  { userBubble := decide (msg.type = MessageType.USER)
    icon := decide (msg.type = MessageType.SYSTEM)
    preWrap := true
    content := Rendered.markdownBlock msg.text }

/-- The non-empty-conversation branch of the renderer (app.tsx lines 104-124):
one block per message, in order. -/
def renderConversation (msgs : List Message) : List RenderedMessage :=
  msgs.map renderMessage

/-- The successive values of `messages` over one `handleSend` invocation:
the initial list, then the list after each `setMessages` call (user append,
then either the error append or one entry per streamed chunk). -/
def streamTrace (msgs : List Message) (acc : String) (chunks : List String) :
    List (List Message) :=
  match chunks with
  | [] => []
  | c :: rest =>
    streamUpdate (acc ++ c) msgs :: streamTrace (streamUpdate (acc ++ c) msgs) (acc ++ c) rest

/-- The conversation states `handleSend` goes through, starting from the
current `messages` value (app.tsx lines 23-79). -/
def conversationTrace (st : AppState) (res : HttpResponse) : List (List Message) :=
  if trimIsEmpty st.input then [st.messages]
  else
    let msgs1 := st.messages ++ [{ type := MessageType.USER, text := st.input }]
    if res.status ≠ 200 then
      [st.messages, msgs1, msgs1 ++ [{ type := MessageType.SYSTEM, text := errorText }]]
    else
      match res.body with
      | none => [st.messages, msgs1, msgs1 ++ [{ type := MessageType.SYSTEM, text := errorText }]]
      | some chunks => st.messages :: msgs1 :: streamTrace msgs1 "" chunks

/-- One legal conversation mutation: either append one message at the end, or
— only when the list is non-empty and its last element is a SYSTEM message —
replace that last element, leaving every earlier message untouched. -/
def MutationOk (before after : List Message) : Prop :=
  (∃ m, after = before ++ [m]) ∨
  (∃ m l, before.getLast? = some l ∧ l.type = MessageType.SYSTEM ∧
    after = before.dropLast ++ [m])

/-! ## Helper lemmas -/

/-- Applying the chunk updater to a list ending in a SYSTEM message replaces
that message with the new accumulated text. -/
theorem streamUpdate_append_system (r t : String) (pre : List Message) :
    streamUpdate r (pre ++ [{ type := MessageType.SYSTEM, text := t }])
      = pre ++ [{ type := MessageType.SYSTEM, text := r }] := by
  simp [streamUpdate, List.getLast?_concat, List.dropLast_concat]

/-- Applying the chunk updater to a list ending in a USER message appends a
new SYSTEM message. -/
theorem streamUpdate_append_user (r t : String) (pre : List Message) :
    streamUpdate r (pre ++ [{ type := MessageType.USER, text := t }])
      = pre ++ [{ type := MessageType.USER, text := t },
          { type := MessageType.SYSTEM, text := r }] := by
  simp [streamUpdate, List.getLast?_concat]

/-- Once the list ends in the SYSTEM message carrying the accumulated text,
the rest of the read loop only extends that message's text. -/
theorem readLoop_system (rest : List String) : ∀ (acc : String) (pre : List Message),
    readLoop (pre ++ [{ type := MessageType.SYSTEM, text := acc }]) acc rest
      = (pre ++ [{ type := MessageType.SYSTEM, text := acc ++ concatChunks rest }],
         acc ++ concatChunks rest) := by
  induction rest with
  | nil =>
    intro acc pre
    simp [readLoop, concatChunks, String.append_empty]
  | cons c rest ih =>
    intro acc pre
    simp only [readLoop, streamUpdate_append_system, ih (acc ++ c) pre, concatChunks,
      String.append_assoc]

/-- The read loop over a non-empty chunk list, started just after the USER
message was appended, adds a single SYSTEM message holding the concatenation
of all chunks. -/
theorem readLoop_user (c : String) (rest : List String) (t : String) (pre : List Message) :
    (readLoop (pre ++ [{ type := MessageType.USER, text := t }]) "" (c :: rest)).1
      = pre ++ [{ type := MessageType.USER, text := t },
          { type := MessageType.SYSTEM, text := concatChunks (c :: rest) }] := by
  have hfirst : streamUpdate ("" ++ c) (pre ++ [{ type := MessageType.USER, text := t }])
      = (pre ++ [{ type := MessageType.USER, text := t }])
          ++ [{ type := MessageType.SYSTEM, text := "" ++ c }] := by
    simp [streamUpdate_append_user]
  simp only [readLoop, hfirst, readLoop_system rest ("" ++ c), concatChunks]
  simp [String.append_assoc]


/-! ## Claim theorems -/

/-- C1: for every successful exchange (status 200, readable body) whose
stream delivers chunks C1..Cn with n ≥ 1, the exchange adds exactly two
messages — the USER message and one single SYSTEM message whose text is the
concatenation C1+...+Cn — so the conversation ends in that one SYSTEM
message and only one SYSTEM message was added. -/
theorem C1_stream_concat (st : AppState) (res : HttpResponse) (chunks : List String)
    (hin : trimIsEmpty st.input = false) (hstatus : res.status = 200)
    (hbody : res.body = some chunks) (hne : chunks ≠ []) :
    (handleSend st res).messages
      = st.messages ++ [{ type := MessageType.USER, text := st.input },
          { type := MessageType.SYSTEM, text := concatChunks chunks }] := by
  cases chunks with
  | nil => exact absurd rfl hne
  | cons c rest =>
    simp [handleSend, hin, hstatus, hbody, readLoop_user]

/-- Witness for C1 at the spec's scenario: input "Hello", chunks
["Hi", " there", "!"]. -/
theorem C1_stream_concat_witness :
    (handleSend { messages := [], input := "Hello", loading := false }
        { status := 200, body := some ["Hi", " there", "!"] }).messages
      = [{ type := MessageType.USER, text := "Hello" },
         { type := MessageType.SYSTEM, text := concatChunks ["Hi", " there", "!"] }] :=
  C1_stream_concat { messages := [], input := "Hello", loading := false }
    { status := 200, body := some ["Hi", " there", "!"] } ["Hi", " there", "!"]
    (by decide) rfl rfl (by decide)

/-- C2: for every send whose response has a status other than 200 or no
readable body, exactly one SYSTEM message with the fixed failure text is
appended after the USER message, with no partial streamed-text message
before it. -/
theorem C2_error_message (st : AppState) (res : HttpResponse)
    (hin : trimIsEmpty st.input = false)
    (herr : res.status ≠ 200 ∨ res.body = none) :
    (handleSend st res).messages
      = st.messages ++ [{ type := MessageType.USER, text := st.input },
          { type := MessageType.SYSTEM, text := errorText }] := by
  rcases herr with h | h
  · simp [handleSend, hin, h]
  · by_cases hs : res.status = 200
    · simp [handleSend, hin, hs, h]
    · simp [handleSend, hin, hs]

/-- Witness for C2 at the spec's scenario: input "Hello", status 500. -/
theorem C2_error_message_witness :
    (handleSend { messages := [], input := "Hello", loading := false }
        { status := 500, body := some [] }).messages
      = [{ type := MessageType.USER, text := "Hello" },
         { type := MessageType.SYSTEM, text := errorText }] :=
  C2_error_message { messages := [], input := "Hello", loading := false }
    { status := 500, body := some [] } (by decide) (Or.inl (by decide))

/-- C4: for every empty or whitespace-only input, `handleSend` is a no-op —
the whole state (conversation, loading flag, input buffer) is unchanged and
no request is issued. -/
theorem C4_whitespace_noop (st : AppState) (res : HttpResponse)
    (hin : trimIsEmpty st.input = true) :
    handleSend st res = st ∧ sentRequest st = none := by
  constructor
  · simp [handleSend, hin]
  · simp [sentRequest, hin]

/-- Witness for C4 at the spec's scenario: whitespace-only input "   ". -/
theorem C4_whitespace_noop_witness :
    handleSend { messages := [], input := "   ", loading := false }
        { status := 200, body := some ["x"] }
      = { messages := [], input := "   ", loading := false } ∧
    sentRequest { messages := [], input := "   ", loading := false } = none :=
  C4_whitespace_noop { messages := [], input := "   ", loading := false }
    { status := 200, body := some ["x"] } (by decide)

/-- C5: for every non-empty trimmed input while not loading, the first
conversation mutation of the send — before any response is processed —
appends exactly one USER message carrying the exact raw input string. -/
theorem C5_user_append (st : AppState) (res : HttpResponse)
    (_hload : st.loading = false) (hin : trimIsEmpty st.input = false) :
    (conversationTrace st res).take 2
      = [st.messages,
         st.messages ++ [{ type := MessageType.USER, text := st.input }]] := by
  by_cases hs : res.status = 200
  · cases hb : res.body with
    | none => simp [conversationTrace, hin, hs, hb]
    | some chunks => simp [conversationTrace, hin, hs, hb]
  · simp [conversationTrace, hin, hs]

/-- Witness for C5: input "Hello", one chunk. -/
theorem C5_user_append_witness :
    (conversationTrace { messages := [], input := "Hello", loading := false }
        { status := 200, body := some ["Hi"] }).take 2
      = [[], [{ type := MessageType.USER, text := "Hello" }]] :=
  C5_user_append { messages := [], input := "Hello", loading := false }
    { status := 200, body := some ["Hi"] } rfl (by decide)

/-- C6: after every completed exchange — streamed success or the failure
branch — the loading flag is false and the input buffer is empty. -/
theorem C6_exchange_resets (st : AppState) (res : HttpResponse)
    (hin : trimIsEmpty st.input = false) :
    (handleSend st res).loading = false ∧ (handleSend st res).input = "" := by
  simp [handleSend, hin]

/-- Witness for C6 on a failing exchange. -/
theorem C6_exchange_resets_witness :
    (handleSend { messages := [], input := "Hello", loading := false }
        { status := 500, body := none }).loading = false ∧
    (handleSend { messages := [], input := "Hello", loading := false }
        { status := 500, body := none }).input = "" :=
  C6_exchange_resets { messages := [], input := "Hello", loading := false }
    { status := 500, body := none } (by decide)

/-- C3 counterexample: `handleSend` itself never reads the loading flag.
Invoked directly in a loading state with non-empty input "hi", it is not a
no-op: the conversation changes and a request is issued. -/
theorem C3_loading_not_noop :
    (handleSend { messages := [], input := "hi", loading := true }
        { status := 200, body := some [] }).messages ≠ [] ∧
    sentRequest { messages := [], input := "hi", loading := true } = some "hi" := by
  decide

/-- C3 amended: while loading is true, both send triggers are disabled — the
input field (whose Enter key invokes the send) and the send button — so no
second send can be initiated through the UI; the guard lives in the controls,
not in `handleSend`. -/
theorem C3_loading_blocks_triggers (st : AppState) (h : st.loading = true) :
    inputDisabled st = true ∧ buttonDisabled st = true ∧ canTriggerSend st = false := by
  simp [inputDisabled, buttonDisabled, canTriggerSend, h]

/-- Witness for the amended C3 in a loading state. -/
theorem C3_loading_blocks_triggers_witness :
    inputDisabled { messages := [], input := "hi", loading := true } = true ∧
    buttonDisabled { messages := [], input := "hi", loading := true } = true ∧
    canTriggerSend { messages := [], input := "hi", loading := true } = false :=
  C3_loading_blocks_triggers { messages := [], input := "hi", loading := true } rfl

/-- Each application of the chunk updater is a legal conversation mutation. -/
theorem streamUpdate_mutationOk (r : String) (msgs : List Message) :
    MutationOk msgs (streamUpdate r msgs) := by
  unfold streamUpdate
  cases h : msgs.getLast? with
  | none => exact Or.inl ⟨_, rfl⟩
  | some last =>
    dsimp only
    by_cases ht : last.type = MessageType.SYSTEM
    · rw [if_pos ht]
      exact Or.inr ⟨_, last, h, ht, rfl⟩
    · rw [if_neg ht]
      exact Or.inl ⟨_, rfl⟩

/-- Consecutive conversation states of the read loop are related by legal
mutations. -/
theorem streamTrace_chain (chunks : List String) : ∀ (acc : String) (msgs : List Message),
    List.Chain' MutationOk (msgs :: streamTrace msgs acc chunks) := by
  induction chunks with
  | nil =>
    intro acc msgs
    simp [streamTrace]
  | cons c rest ih =>
    intro acc msgs
    simp only [streamTrace]
    exact List.Chain'.cons (streamUpdate_mutationOk _ _) (ih _ _)

/-- C7: every mutation of the conversation over a send — whatever the input
and response — either appends one message at the end or replaces the last
message, and replacement happens only when that last message is SYSTEM, so
all earlier messages are never modified. -/
theorem C7_mutation_discipline (st : AppState) (res : HttpResponse) :
    List.Chain' MutationOk (conversationTrace st res) := by
  by_cases hin : trimIsEmpty st.input
  · simp [conversationTrace, hin]
  · by_cases hs : res.status = 200
    · cases hb : res.body with
      | none =>
        simp only [conversationTrace, hin, Bool.false_eq_true, if_false, hs, ne_eq,
          not_true_eq_false, hb]
        exact List.Chain'.cons (Or.inl ⟨_, rfl⟩)
          (List.Chain'.cons (Or.inl ⟨_, rfl⟩) (List.chain'_singleton _))
      | some chunks =>
        simp only [conversationTrace, hin, Bool.false_eq_true, if_false, hs, ne_eq,
          not_true_eq_false, hb]
        exact List.Chain'.cons (Or.inl ⟨_, rfl⟩) (streamTrace_chain chunks "" _)
    · simp only [conversationTrace, hin, Bool.false_eq_true, if_false, hs, ne_eq,
        not_false_eq_true, if_true]
      exact List.Chain'.cons (Or.inl ⟨_, rfl⟩)
        (List.Chain'.cons (Or.inl ⟨_, rfl⟩) (List.chain'_singleton _))

/-- The last state of the conversation trace is the message list `handleSend`
leaves behind: the trace really is the history of that transformer. -/
theorem streamTrace_getLast (chunks : List String) : ∀ (acc : String) (msgs : List Message),
    (msgs :: streamTrace msgs acc chunks).getLast? = some (readLoop msgs acc chunks).1 := by
  induction chunks with
  | nil =>
    intro acc msgs
    simp [streamTrace, readLoop]
  | cons c rest ih =>
    intro acc msgs
    simp only [streamTrace, readLoop, List.getLast?_cons_cons]
    exact ih _ _

/-- `conversationTrace` ends exactly at the conversation `handleSend` returns. -/
theorem conversationTrace_getLast (st : AppState) (res : HttpResponse) :
    (conversationTrace st res).getLast? = some (handleSend st res).messages := by
  by_cases hin : trimIsEmpty st.input
  · simp [conversationTrace, handleSend, hin]
  · by_cases hs : res.status = 200
    · cases hb : res.body with
      | none => simp [conversationTrace, handleSend, hin, hs, hb]
      | some chunks =>
        simp only [conversationTrace, handleSend, hin, Bool.false_eq_true, if_false, hs,
          ne_eq, not_true_eq_false, hb]
        exact streamTrace_getLast chunks "" _
    · simp [conversationTrace, handleSend, hin, hs]

/-- C8 counterexample: a USER message's text is wrapped in `ReactMarkdown`
like everything else (app.tsx lines 118-120) — it is passed through the
markdown transform, not rendered as literal preformatted text. -/
theorem C8_user_is_markdown :
    (renderMessage { type := MessageType.USER, text := "**hi**" }).content
        = Rendered.markdownBlock "**hi**" ∧
    (renderMessage { type := MessageType.USER, text := "**hi**" }).content
        ≠ Rendered.preformatted "**hi**" := by
  decide

/-- C8 amended: the renderer places every message of the conversation, USER
and SYSTEM alike, through the markdown-to-visual transform inside a
whitespace-preserving container; the per-type differences are only the
sparkle icon (SYSTEM) and the bubble styling (USER). -/
theorem C8_markdown_render (msgs : List Message) (i : Nat) (h : i < msgs.length) :
    ∃ r, (renderConversation msgs).get? i = some r ∧
      r.content = Rendered.markdownBlock (msgs.get ⟨i, h⟩).text ∧
      r.preWrap = true ∧
      (r.icon = true ↔ (msgs.get ⟨i, h⟩).type = MessageType.SYSTEM) ∧
      (r.userBubble = true ↔ (msgs.get ⟨i, h⟩).type = MessageType.USER) := by
  refine ⟨renderMessage (msgs.get ⟨i, h⟩), ?_, rfl, rfl, ?_, ?_⟩
  · simp [renderConversation, List.get?_eq_getElem?, List.getElem?_map,
      List.getElem?_eq_getElem h, List.get_eq_getElem]
  · simp [renderMessage]
  · simp [renderMessage]

/-- Witness for the amended C8 on a one-message conversation. -/
theorem C8_markdown_render_witness :
    ∃ r, (renderConversation [{ type := MessageType.USER, text := "hi" }]).get? 0 = some r ∧
      r.content = Rendered.markdownBlock
        (([{ type := MessageType.USER, text := "hi" }] : List Message).get ⟨0, by decide⟩).text ∧
      r.preWrap = true ∧
      (r.icon = true ↔
        (([{ type := MessageType.USER, text := "hi" }] : List Message).get ⟨0, by decide⟩).type
          = MessageType.SYSTEM) ∧
      (r.userBubble = true ↔
        (([{ type := MessageType.USER, text := "hi" }] : List Message).get ⟨0, by decide⟩).type
          = MessageType.USER) :=
  C8_markdown_render [{ type := MessageType.USER, text := "hi" }] 0 (by decide)

/-- C9 counterexample: in the idle state with an empty input buffer, the
trimmed field content is empty, yet the text input field is not disabled —
only the send button is (app.tsx lines 133 and 135). -/
theorem C9_input_field_enabled_when_empty :
    trimIsEmpty (AppState.mk [] "" false).input = true ∧
    inputDisabled { messages := [], input := "", loading := false } = false := by
  decide

/-- C9 amended: the send button is disabled exactly when loading is true or
the trimmed field content is empty; the text input field is disabled exactly
when loading is true (it stays enabled on an empty field). -/
theorem C9_disabled_flags (st : AppState) :
    (buttonDisabled st = true ↔ (st.loading = true ∨ trimIsEmpty st.input = true)) ∧
    (inputDisabled st = true ↔ st.loading = true) := by
  constructor
  · simp [buttonDisabled]
  · simp [inputDisabled]

/-- C10 counterexample: a stream that delivers one empty chunk has delivered
zero non-empty chunks, yet a SYSTEM message (with empty text) is appended:
the `if (value)` guard tests the byte array, which is present, not the
decoded text. -/
theorem C10_empty_chunk_appends :
    (∀ c ∈ [("" : String)], c = "") ∧
    (handleSend { messages := [], input := "Hello", loading := false }
        { status := 200, body := some [""] }).messages
      = [{ type := MessageType.USER, text := "Hello" },
         { type := MessageType.SYSTEM, text := "" }] := by
  decide

/-- C10 amended: for a successful response whose stream terminates having
delivered zero chunks, no SYSTEM message is appended — the conversation ends
with only the USER message — while loading is reset to false and the input
buffer is cleared. -/
theorem C10_no_chunks_no_system (st : AppState) (res : HttpResponse)
    (hin : trimIsEmpty st.input = false) (hstatus : res.status = 200)
    (hbody : res.body = some []) :
    (handleSend st res).messages
        = st.messages ++ [{ type := MessageType.USER, text := st.input }] ∧
    (handleSend st res).loading = false ∧
    (handleSend st res).input = "" := by
  refine ⟨?_, ?_, ?_⟩ <;> simp [handleSend, hin, hstatus, hbody, readLoop]

/-- Witness for the amended C10: input "Hello", empty stream. -/
theorem C10_no_chunks_no_system_witness :
    (handleSend { messages := [], input := "Hello", loading := false }
        { status := 200, body := some [] }).messages
      = [{ type := MessageType.USER, text := "Hello" }] ∧
    (handleSend { messages := [], input := "Hello", loading := false }
        { status := 200, body := some [] }).loading = false ∧
    (handleSend { messages := [], input := "Hello", loading := false }
        { status := 200, body := some [] }).input = "" :=
  C10_no_chunks_no_system { messages := [], input := "Hello", loading := false }
    { status := 200, body := some [] } (by decide) rfl rfl
